import Mathlib

set_option maxHeartbeats 1000000

/-!
Verification development for the sciagent rigor-enforcing sandboxed
execution engine.  The definitions below are shallow embeddings of
`sciagent/guardrails/scanner.py`, `sciagent/guardrails/validator.py`,
`sciagent/tools/sandbox.py`, `sciagent/tools/scripts.py` and
`sciagent/tools/session_log.py`.  External effects (regex search,
`exec`, the wall clock, the md5 digest, floating-point smoothness
statistics) are threaded as explicit oracle parameters; the filesystem
and the session log are passed as explicit state.
-/

/-- Severity of a pattern match (`scanner.py`, `class Severity`). -/
inductive Severity where
  | critical
  | warning
deriving DecidableEq, Repr

/-- User-configurable enforcement level (`scanner.py`, `class RigorLevel`). -/
inductive RigorLevel where
  | strict
  | standard
  | relaxed
  | bypass
deriving DecidableEq, Repr

/-- A (pattern, message, severity) rule, as the tuples stored in
`CodeScanner._forbidden` / `CodeScanner._warnings`. -/
structure PatternRule where
  pattern : String
  message : String
  severity : Severity
deriving DecidableEq, Repr

/-- Oracle for `re.search(pattern, code, re.IGNORECASE)`: given the pattern
and the code text, does the pattern match anywhere in the text? -/
abbrev Matcher := String → String → Bool

/-- Result dict of `CodeScanner.check` (`scanner.py`). -/
structure ScanResult where
  passed : Bool
  violations : List String
  needs_confirmation : List String
  warnings : List String
deriving DecidableEq, Repr

/-- The scanner state: rigor level plus the two ordered rule lists
(`CodeScanner.__init__`). -/
structure CodeScanner where
  rigor_level : RigorLevel
  forbidden : List PatternRule
  warningRules : List PatternRule
deriving Repr

/-- Embedding of `CodeScanner._classify` (`scanner.py` lines 257-284): append *message*
to the right bucket of the accumulator `(violations, needs_confirmation,
warnings)` according to the rigor level and the severity.  BYPASS appends
nowhere (it is short-circuited in `check` before `_classify` runs). -/
def CodeScanner.classify (level : RigorLevel) (severity : Severity)
    (message : String) (acc : List String × List String × List String) :
    List String × List String × List String :=
  match level with
  | RigorLevel.strict => (acc.1 ++ [message], acc.2.1, acc.2.2)
  | RigorLevel.standard =>
      match severity with
      | Severity.critical => (acc.1 ++ [message], acc.2.1, acc.2.2)
      | Severity.warning => (acc.1, acc.2.1 ++ [message], acc.2.2)
  | RigorLevel.relaxed =>
      match severity with
      | Severity.critical => (acc.1, acc.2.1 ++ [message], acc.2.2)
      | Severity.warning => (acc.1, acc.2.1, acc.2.2 ++ [message])
  | RigorLevel.bypass => acc

/-- Embedding of `CodeScanner.check` (`scanner.py` lines 216-253): BYPASS short-circuits
to an all-empty passing result; otherwise every rule of
`_forbidden + _warnings` whose pattern rmatch the code is classified into
one of the three buckets, and `passed` is `violations == []`. -/
def CodeScanner.check (rmatch : Matcher) (s : CodeScanner) (code : String) :
    ScanResult :=
  if s.rigor_level = RigorLevel.bypass then
    { passed := true, violations := [], needs_confirmation := [], warnings := [] }
  else
    let all_patterns := s.forbidden ++ s.warningRules
    let acc := all_patterns.foldl
      (fun acc r =>
        if rmatch r.pattern code then
          CodeScanner.classify s.rigor_level r.severity r.message acc
        else acc)
      ([], [], [])
    { passed := acc.1.isEmpty
      violations := acc.1
      needs_confirmation := acc.2.1
      warnings := acc.2.2 }

/-- The three buckets a classified message can land in. -/
inductive Bucket where
  | violation
  | confirm
  | warn
deriving DecidableEq, Repr

/-- The (level, severity) routing table of spec section 4.1, written
independently of the scanner code: STRICT sends everything to violations,
STANDARD sends CRITICAL to violations and WARNING to needs-confirmation,
RELAXED sends CRITICAL to needs-confirmation and WARNING to warnings,
BYPASS routes nothing. -/
def routeBucket (level : RigorLevel) (severity : Severity) : Option Bucket :=
  match level, severity with
  | RigorLevel.strict, _ => some Bucket.violation
  | RigorLevel.standard, Severity.critical => some Bucket.violation
  | RigorLevel.standard, Severity.warning => some Bucket.confirm
  | RigorLevel.relaxed, Severity.critical => some Bucket.confirm
  | RigorLevel.relaxed, Severity.warning => some Bucket.warn
  | RigorLevel.bypass, _ => none

/-- Messages of the matching rules of `rules` that the routing table sends
to bucket `b` (spec-side description of one output list of `check`). -/
def bucketMsgs (rmatch : Matcher) (level : RigorLevel) (code : String)
    (rules : List PatternRule) (b : Bucket) : List String :=
  (rules.filter (fun r => rmatch r.pattern code)).filterMap
    (fun r => if routeBucket level r.severity = some b then some r.message else none)

lemma classify_foldl_eq (rmatch : Matcher) (level : RigorLevel) (code : String)
    (rules : List PatternRule) (acc : List String × List String × List String) :
    rules.foldl
      (fun acc r =>
        if rmatch r.pattern code then
          CodeScanner.classify level r.severity r.message acc
        else acc)
      acc
      = (acc.1 ++ bucketMsgs rmatch level code rules Bucket.violation,
         acc.2.1 ++ bucketMsgs rmatch level code rules Bucket.confirm,
         acc.2.2 ++ bucketMsgs rmatch level code rules Bucket.warn) := by
  induction rules generalizing acc with
  | nil => simp [bucketMsgs]
  | cons r rs ih =>
    rw [List.foldl_cons, ih]
    by_cases hm : rmatch r.pattern code
    · cases level <;> cases hsev : r.severity <;>
        simp [bucketMsgs, CodeScanner.classify, hm, hsev, routeBucket]
    · simp [bucketMsgs, hm]

/-- A numeric cell of an array-like input: NaN, an infinity, or a finite
value (modelled as an exact rational). -/
inductive FVal where
  | nan
  | posInf
  | negInf
  | val (q : ℚ)
deriving DecidableEq, Repr

/-- Embedding of `np.isnan` on one cell. -/
def FVal.isNaN : FVal → Bool
  | FVal.nan => true
  | _ => false

/-- Embedding of `np.isinf` on one cell (either sign). -/
def FVal.isInf : FVal → Bool
  | FVal.posInf => true
  | FVal.negInf => true
  | _ => false

/-- Embedding of `np.isfinite` on one cell. -/
def FVal.isFinite (v : FVal) : Bool := !v.isNaN && !v.isInf

/-- The comparison `cell == 0` (false for NaN and for infinities). -/
def FVal.eqZero : FVal → Bool
  | FVal.val q => q = 0
  | _ => false

/-- The finite entries of the array, in order (`arr[np.isfinite(arr)]`). -/
def cleanVals (arr : List FVal) : List ℚ :=
  arr.filterMap (fun v =>
    match v with
    | FVal.val q => some q
    | _ => none)

/-- Mean of a list of rationals (`np.mean`). -/
def qmean (l : List ℚ) : ℚ := l.sum / l.length

/-- Population variance in exact rational arithmetic (ddof = 0).  Used only
by the idealised `stdZeroQ` oracle fixture below: the program computes
`np.std` in IEEE-754 doubles, where the standard deviation of a constant
list need not be exactly zero (rounding of the mean). -/
def qvariance (l : List ℚ) : ℚ := (l.map (fun x => (x - qmean l) ^ 2)).sum / l.length

/-- Report dict of `validate_data_integrity` (`validator.py`).  The `stats`
sub-dict of the source (min/max/mean/std over the finite entries) is a
floating-point display summary consulted by no caller in this core and is
not modelled. -/
structure IntegrityReport where
  valid : Bool
  issues : List String
  warnings : List String
  name : String
deriving Repr

/-- Embedding of `validate_data_integrity` (`validator.py` lines 16-88).  `fmtQ` is the
oracle for the `%.1f` float formatter used inside messages; `stdZero` is
the oracle for the floating-point zero-variance check
`np.std(clean) == 0` on the finite entries (IEEE-754 rounding can make it
false even on a constant list); `smooth` is the oracle for the
floating-point suspicious-smoothness statistic
`np.std(np.diff(clean)) / (np.std(clean) + 1e-10) < 0.0001` applied to the
finite entries.  Issues are collected in source order: NaN fraction, Inf
count, zero variance, all-zeros; `valid` is `issues == []`. -/
def validate_data_integrity (fmtQ : ℚ → String) (smooth stdZero : List ℚ → Bool)
    (data : List FVal) (name : String) : IntegrityReport :=
  let arr := data
  let nan_count := (arr.filter FVal.isNaN).length
  let nan_pct : ℚ := if arr.length > 0 then 100 * nan_count / arr.length else 0
  let nanIssues : List String :=
    if 0 < nan_count ∧ 50 < nan_pct then
      [name ++ ": " ++ fmtQ nan_pct ++ "% NaN values — data may be corrupted"]
    else []
  let nanWarnings : List String :=
    if 0 < nan_count ∧ ¬ 50 < nan_pct then
      [name ++ ": " ++ fmtQ nan_pct ++ "% NaN values detected"]
    else []
  let inf_count := (arr.filter FVal.isInf).length
  let infIssues : List String :=
    if 0 < inf_count then
      [name ++ ": " ++ toString inf_count ++ " Inf values detected — check instrument saturation"]
    else []
  let clean : List ℚ := cleanVals arr
  let varIssues : List String :=
    if 0 < clean.length ∧ stdZero clean = true then
      [name ++ ": Zero variance — possible recording failure or disconnection"]
    else []
  let zeroIssues : List String :=
    if arr.all FVal.eqZero then
      [name ++ ": All zeros — check instrument connection"]
    else []
  let smoothWarnings : List String :=
    if 1000 < clean.length ∧ smooth clean = true then
      [name ++ ": Suspiciously smooth — real data typically has noise"]
    else []
  let issues := nanIssues ++ infIssues ++ varIssues ++ zeroIssues
  let warnings := nanWarnings ++ smoothWarnings
  { valid := issues.isEmpty, issues := issues, warnings := warnings, name := name }

/-- One entry of the session log (`session_log.py`, `SessionLog.record`). -/
structure SessionLogEntry where
  step : Nat
  timestamp : String
  code : String
  success : Bool
  error : String
  description : String
deriving DecidableEq, Repr

/-- Embedding of `SessionLog` state (`session_log.py`): ordered entries, deduplicated
insertion-ordered loaded files, and the export latch. -/
structure SessionLog where
  entries : List SessionLogEntry
  loaded_files : List String
  script_exported : Bool
deriving Repr

/-- Embedding of `SessionLog.record`: append one entry with a 1-based step number.
`now` is the `datetime.now().isoformat()` timestamp oracle value. -/
def SessionLog.record (log : SessionLog) (now code : String)
    (success : Bool) (error : String) : SessionLog :=
  { log with
    entries := log.entries ++
      [{ step := log.entries.length + 1, timestamp := now, code := code,
         success := success, error := error, description := "" }] }

/-- Embedding of `SessionLog.record_file_load`: canonicalise (via the `Path.resolve`
oracle) and append if not already present. -/
def SessionLog.record_file_load (resolve : String → String) (log : SessionLog)
    (file_path : String) : SessionLog :=
  let canonical := resolve file_path
  if canonical ∈ log.loaded_files then log
  else { log with loaded_files := log.loaded_files ++ [canonical] }

/-- Embedding of `SessionLog.clear`. -/
def SessionLog.clear (_log : SessionLog) : SessionLog :=
  { entries := [], loaded_files := [], script_exported := false }

/-- The summary dict of `SessionLog.summary`. -/
structure LogSummary where
  total_steps : Nat
  successful_steps : Nat
  failed_steps : Nat
  loaded_files : List String
  script_exported : Bool
deriving DecidableEq, Repr

/-- Embedding of `SessionLog.summary` (`session_log.py`). -/
def SessionLog.summary (log : SessionLog) : LogSummary :=
  { total_steps := log.entries.length
    successful_steps := (log.entries.filter (fun e => e.success)).length
    failed_steps := (log.entries.filter (fun e => !e.success)).length
    loaded_files := log.loaded_files
    script_exported := log.script_exported }

/-- Files live either in the `scripts/` archive (named
`script_{stamp}_{hash}.py`) or directly under the output directory. -/
inductive FileName where
  | scriptArchive (stamp : String) (hash : String)
  | outputFile (name : String)
deriving DecidableEq, Repr

/-- Render a `FileName` relative to the output directory (for messages). -/
def FileName.render : FileName → String
  | FileName.scriptArchive stamp hash => "scripts/script_" ++ stamp ++ "_" ++ hash ++ ".py"
  | FileName.outputFile name => name

/-- The output directory's file tree: an association of file names to
contents, one entry per existing file. -/
abbrev FileSys := List (FileName × String)

/-- Embedding of `write_text`: create the file or overwrite the existing one. -/
def fsWrite (fs : FileSys) (p : FileName) (content : String) : FileSys :=
  (fs.filter (fun kv => decide (kv.1 ≠ p))) ++ [(p, content)]

/-- Content of a file, if present. -/
def fsRead (fs : FileSys) (p : FileName) : Option String :=
  (fs.find? (fun kv => decide (kv.1 = p))).map (fun kv => kv.2)

/-- Number of files with the given name (0 or 1 for any reachable state). -/
def fsCount (fs : FileSys) (p : FileName) : Nat :=
  (fs.filter (fun kv => decide (kv.1 = p))).length

/-- Embedding of `save_script` (`scripts.py` lines 25-56): no-op returning `None` when no
output directory is available, else write the code to
`scripts/script_{stamp}_{short_hash}.py` where `stamp` is the
second-granularity `%Y%m%d_%H%M%S` clock string and `short_hash` is the
first 6 hex digits of the md5 of the code (`md5_6` oracle). -/
def save_script (md5_6 : String → String) (stamp : String) (code : String)
    (hasOutputDir : Bool) (fs : FileSys) : Option FileName × FileSys :=
  if hasOutputDir = false then (none, fs)
  else
    let dest := FileName.scriptArchive stamp (md5_6 code)
    (some dest, fsWrite fs dest code)

/-- Join a list of strings with newlines (`"\n".join`). -/
def joinNL (l : List String) : String := String.intercalate "\n" l

/-- Embedding of `SANITY_CHECK_HEADER` (`validator.py`): the fixed preamble prepended to
the code when `inject_sanity_checks` is set. -/
def SANITY_CHECK_HEADER : String :=
  "# === AUTO-INJECTED SANITY CHECKS (Scientific Rigor) ===\n"
  ++ "import numpy as np\n"
  ++ "\n"
  ++ "def _validate_input(arr, name=\"data\"):\n"
  ++ "    \"\"\"Validate input array before analysis. Raises on critical issues.\"\"\"\n"
  ++ "    if arr is None:\n"
  ++ "        raise ValueError(f\"RIGOR: \x7bname\x7d is None — cannot analyze missing data\")\n"
  ++ "    arr = np.asarray(arr)\n"
  ++ "    if arr.size == 0:\n"
  ++ "        raise ValueError(f\"RIGOR: \x7bname\x7d is empty — no data to analyze\")\n"
  ++ "    nan_pct = 100 * np.sum(np.isnan(arr)) / arr.size\n"
  ++ "    if nan_pct > 50:\n"
  ++ "        raise ValueError(f\"RIGOR: \x7bname\x7d is \x7bnan_pct:.0f\x7d% NaN — data is corrupted\")\n"
  ++ "    elif nan_pct > 0:\n"
  ++ "        print(f\"WARNING: \x7bname\x7d contains \x7bnan_pct:.1f\x7d% NaN values\")\n"
  ++ "    if np.all(arr == 0):\n"
  ++ "        raise ValueError(f\"RIGOR: \x7bname\x7d is all zeros — check recording\")\n"
  ++ "    if np.std(arr[np.isfinite(arr)]) == 0:\n"
  ++ "        raise ValueError(f\"RIGOR: \x7bname\x7d has zero variance — recording failure?\")\n"
  ++ "    return arr\n"
  ++ "\n"
  ++ "def _check_range(value, name, lo, hi):\n"
  ++ "    \"\"\"Warn if value is outside expected range.\"\"\"\n"
  ++ "    if not (lo <= value <= hi):\n"
  ++ "        print(f\"WARNING: \x7bname\x7d=\x7bvalue:.4g\x7d outside expected range [\x7blo\x7d, \x7bhi\x7d]\")\n"
  ++ "    return value\n"
  ++ "\n"
  ++ "# === END SANITY CHECKS ===\n"

/-- What `exec(code, globals, locals)` plus the stdout/stderr capture did:
`raised` is whether an exception escaped, `errText` is the
`f"{type}: {e}\n{traceback}"` summary when it did, and the captured
streams, snapshotted variables and captured figures are carried through. -/
structure RunOutcome where
  raised : Bool
  stdoutText : String
  stderrText : String
  errText : String
  variablesOut : List (String × String)
  figures : List String
deriving Repr

/-- Oracle for running the (preamble-injected) code text in the sandbox
namespace: the trusted Python interpreter is outside the embedding. -/
abbrev Runner := String → RunOutcome

/-- A value bound in the caller-supplied `context` map: either a NumPy
array (the only kind `execute_code` integrity-checks) or anything else. -/
inductive CtxVal where
  | ndarray (data : List FVal)
  | other
deriving Repr

/-- The integrity loop of `execute_code` (`sandbox.py` lines 291-311): walk
the context entries in order; on the first invalid array return its issues
(`Except.error`), otherwise accumulate every array's warnings. -/
def integrityScan (fmtQ : ℚ → String) (smooth stdZero : List ℚ → Bool) :
    List (String × CtxVal) → Except (List String) (List String)
  | [] => Except.ok []
  | (key, CtxVal.ndarray a) :: rest =>
      let integrity := validate_data_integrity fmtQ smooth stdZero a key
      if integrity.valid then
        match integrityScan fmtQ smooth stdZero rest with
        | Except.ok ws => Except.ok (integrity.warnings ++ ws)
        | Except.error issues => Except.error issues
      else Except.error integrity.issues
  | (_, CtxVal.other) :: rest => integrityScan fmtQ smooth stdZero rest

/-- The result dict of `execute_code`.  The Python dict carries
`needs_confirmation` only on the pending-confirmation branch and `message`
only where set; they are modelled with a `false` / `none` default.  The
`result` key is initialised to `None` and never assigned. -/
structure ExecutionResult where
  success : Bool
  output : String
  error : Option String
  result : Option String
  vars : List (String × String)
  figures : List String
  rigor_warnings : Option (List String)
  needs_confirmation : Bool
  message : Option String
deriving Repr

/-- The instruction message of the pending-confirmation branch of
`execute_code`. -/
def confirmMessage (items : List String) : String :=
  "⚠️ RIGOR WARNING — The following concerns were detected:\n"
  ++ joinNL (items.map (fun w => "• " ++ w))
  ++ "\n\nPresent these warnings to the user and ask whether "
  ++ "to proceed. If they confirm, re-call execute_code with "
  ++ "confirmed=True."

/-- Output of one `execute_code` call: the returned result, the filesystem
and session log after the call, and whether `exec` was reached. -/
structure ExecOutput where
  res : ExecutionResult
  fs : FileSys
  log : SessionLog
  executed : Bool
deriving Repr

/-- Embedding of `execute_code` (`sandbox.py` lines 179-402).  Oracles: `rmatch` for
regex search, `md5_6` for the archive hash, `fmtQ`/`smooth`/`stdZero` for
the float formatting, smoothness statistic and zero-variance check of the
validator, `run` for the
interpreter.  `stamp` is the `%Y%m%d_%H%M%S` clock string read by
`save_script`, `now` the iso timestamp read by `SessionLog.record`.
Algorithm, in source order: rigor scan (hard block on violations;
pending-confirmation block when unconfirmed; warnings pass through),
data-integrity scan of context arrays (first invalid array blocks),
preamble injection, script archiving, execution, session-log record.
The three blocked branches return before the archive and before the
session-log record. -/
def execute_code (rmatch : Matcher) (md5_6 : String → String)
    (fmtQ : ℚ → String) (smooth stdZero : List ℚ → Bool) (run : Runner)
    (code : String) (context : List (String × CtxVal))
    (enforce_rigor : Bool) (inject_sanity_checks : Bool)
    (hasOutputDir : Bool) (stamp : String) (now : String)
    (scanner : CodeScanner) (fs : FileSys) (log : SessionLog)
    (confirmed : Bool) : ExecOutput :=
  let rigor_check := scanner.check rmatch code
  if enforce_rigor = true ∧ rigor_check.passed = false then
    { res := { success := false, output := "",
               error := some ("SCIENTIFIC RIGOR VIOLATION — Code blocked:\n"
                 ++ joinNL rigor_check.violations),
               result := none, vars := [], figures := [],
               rigor_warnings := some rigor_check.violations,
               needs_confirmation := false, message := none }
      fs := fs, log := log, executed := false }
  else if enforce_rigor = true ∧ rigor_check.needs_confirmation ≠ [] ∧ confirmed = false then
    { res := { success := false, output := "", error := none,
               result := none, vars := [], figures := [],
               rigor_warnings := some rigor_check.needs_confirmation,
               needs_confirmation := true,
               message := some (confirmMessage rigor_check.needs_confirmation) }
      fs := fs, log := log, executed := false }
  else
    let rigorWarnings0 := if enforce_rigor then rigor_check.warnings else []
    match integrityScan fmtQ smooth stdZero context with
    | Except.error issues =>
        { res := { success := false, output := "",
                   error := some ("DATA INTEGRITY ISSUE — Analysis blocked:\n"
                     ++ joinNL issues),
                   result := none, vars := [], figures := [],
                   rigor_warnings := some issues,
                   needs_confirmation := false, message := none }
          fs := fs, log := log, executed := false }
    | Except.ok integrityWarnings =>
        let rigor_warnings := rigorWarnings0 ++ integrityWarnings
        let code2 := if inject_sanity_checks then SANITY_CHECK_HEADER ++ code else code
        let fs2 := (save_script md5_6 stamp code2 hasOutputDir fs).2
        let outcome := run code2
        let res : ExecutionResult :=
          if outcome.raised then
            { success := false, output := outcome.stdoutText,
              error := some outcome.errText, result := none,
              vars := [], figures := [],
              rigor_warnings := if rigor_warnings.isEmpty then none else some rigor_warnings,
              needs_confirmation := false, message := none }
          else
            { success := true,
              output := outcome.stdoutText
                ++ (if outcome.stderrText = "" then ""
                    else "\n[stderr]: " ++ outcome.stderrText),
              error := none, result := none,
              vars := outcome.variablesOut,
              figures := outcome.figures,
              rigor_warnings := if rigor_warnings.isEmpty then none else some rigor_warnings,
              needs_confirmation := false, message := none }
        let log2 := log.record now code2 res.success
          (match res.error with | some e => e | none => "")
        { res := res, fs := fs2, log := log2, executed := true }

/-- The retrieval dict of `retrieve_session_log` (`scripts.py`).  In the
empty branch the source's summary dict carries only the four zero counts
(no `script_exported` key); it is modelled with `script_exported = false`. -/
structure RetrievedLog where
  summary : LogSummary
  entries : List SessionLogEntry
  message : Option String
deriving Repr

/-- Embedding of `retrieve_session_log` (`scripts.py` lines 59-88). -/
def retrieve_session_log (log : SessionLog) : RetrievedLog :=
  if log.entries.isEmpty then
    { summary := { total_steps := 0, successful_steps := 0, failed_steps := 0,
                   loaded_files := [], script_exported := false }
      entries := []
      message := some "No code has been executed in this session yet." }
  else
    { summary := log.summary, entries := log.entries, message := none }

/-- Oracle for `ast.parse` used as a syntax check: `some (lineno, msg)` is
a `SyntaxError` with its line and reason, `none` means the code parses. -/
abbrev ParseOracle := String → Option (Nat × String)

/-- The result dict of `save_reproducible_script`. -/
structure ExportResult where
  success : Bool
  path : Option FileName
  message : String
deriving Repr

/-- Embedding of `save_reproducible_script` (`scripts.py` lines 91-152): syntax-check
first (a failure returns a structured error naming line and reason and
touches nothing); then resolve the output directory (missing directory is
a structured failure); then overwrite `filename` under the output
directory and set the `script_exported` latch. -/
def save_reproducible_script (parseErr : ParseOracle) (code : String)
    (filename : String) (hasOutputDir : Bool) (fs : FileSys)
    (log : SessionLog) : ExportResult × FileSys × SessionLog :=
  match parseErr code with
  | some (lineno, msg) =>
      ({ success := false, path := none,
         message := "Script has a syntax error at line " ++ toString lineno
           ++ ": " ++ msg }, fs, log)
  | none =>
      if hasOutputDir = false then
        ({ success := false, path := none,
           message := "No output directory configured." }, fs, log)
      else
        let dest := FileName.outputFile filename
        ({ success := true, path := some dest,
           message := "Reproducible script saved to " ++ dest.render },
         fsWrite fs dest code,
         { log with script_exported := true })

/-- The AST shapes `validate_code` distinguishes while walking the parsed
tree: a call whose callee is a bare name, a call whose callee is
`name.attr`, an attribute access, or anything else. -/
inductive PyNode where
  | callName (id : String)
  | callAttr (objName : String) (attrName : String)
  | attrNode (attrName : String)
  | other
deriving DecidableEq, Repr

/-- Oracle for `ast.parse` followed by `ast.walk`: a syntax error with line
and reason, or the walked node list. -/
abbrev AstOracle := String → Except (Nat × String) (List PyNode)

/-- The result dict of `validate_code`. -/
structure ValidationResult where
  valid : Bool
  errors : List String
  warnings : List String
deriving DecidableEq, Repr

/-- Embedding of `dangerous_calls` (`sandbox.py`, `validate_code`). -/
def dangerous_calls : List String :=
  ["eval", "exec", "compile", "__import__", "open", "os.system"]

/-- Embedding of `dangerous_attrs` (`sandbox.py`, `validate_code`). -/
def dangerous_attrs : List String :=
  ["__class__", "__bases__", "__subclasses__"]

/-- Embedding of `dangerous_module_calls` (`sandbox.py`, `validate_code`). -/
def dangerous_module_calls : List (String × List String) :=
  [("subprocess", ["run", "Popen", "call", "check_output", "check_call"]),
   ("os", ["system", "popen", "execl", "execle", "execlp", "execv",
           "execve", "execvp", "execvpe", "spawnl", "spawnle"])]

/-- The warnings one walked node contributes in `validate_code`'s loop. -/
def nodeWarnings (n : PyNode) : List String :=
  match n with
  | PyNode.callName idName =>
      if idName ∈ dangerous_calls then
        ["Potentially dangerous call: " ++ idName ++ "()"]
      else []
  | PyNode.callAttr modName funcName =>
      match dangerous_module_calls.lookup modName with
      | some fns =>
          if funcName ∈ fns then
            ["BLOCKED: " ++ modName ++ "." ++ funcName
              ++ "() — shell execution is not "
              ++ "permitted inside the sandbox."]
          else []
      | none => []
  | PyNode.attrNode attrName =>
      if attrName ∈ dangerous_attrs then
        ["Accessing special attribute: " ++ attrName]
      else []
  | PyNode.other => []

/-- Embedding of `validate_code` (`sandbox.py` lines 110-174): a syntax error makes
`valid = false` with one error naming line and reason and returns at once;
otherwise `valid = true` and the AST walk only ever appends to
`warnings`. -/
def validate_code (parseAst : AstOracle) (code : String) : ValidationResult :=
  match parseAst code with
  | Except.error (lineno, msg) =>
      { valid := false
        errors := ["Syntax error at line " ++ toString lineno ++ ": " ++ msg]
        warnings := [] }
  | Except.ok nodes =>
      { valid := true, errors := [], warnings := nodes.flatMap nodeWarnings }

/-- Embedding of `DEFAULT_FORBIDDEN_PATTERNS` (`scanner.py`): the nine shipped
forbidden-origin rules with their severities. -/
def DEFAULT_FORBIDDEN_PATTERNS : List PatternRule :=
  [⟨"np\\.random\\.(rand|randn|random|uniform|normal|choice)\\s*\\(",
    "RIGOR VIOLATION: Random/synthetic data generation detected. "
      ++ "Use real experimental data only.",
    Severity.warning⟩,
   ⟨"random\\.(random|uniform|gauss|choice)\\s*\\(",
    "RIGOR VIOLATION: Random data generation detected. "
      ++ "Use real experimental data only.",
    Severity.warning⟩,
   ⟨"fake|dummy|synthetic|simulated",
    "RIGOR VIOLATION: Code references fake/synthetic data. "
      ++ "Use real experimental data only.",
    Severity.warning⟩,
   ⟨"if.*p.?value.*[<>].*0\\.05.*:.*=",
    "RIGOR VIOLATION: Conditional result modification based on p-value detected.",
    Severity.critical⟩,
   ⟨"result\\s*=\\s*(expected|hypothesis|target)",
    "RIGOR VIOLATION: Result forced to match expected/hypothesis value.",
    Severity.critical⟩,
   ⟨"#.*hack|#.*fudge|#.*fake",
    "RIGOR VIOLATION: Code contains suspicious comments suggesting data manipulation.",
    Severity.warning⟩,
   ⟨"subprocess\\.(run|Popen|call|check_output|check_call)\\s*\\(",
    "RIGOR WARNING: Shell subprocess execution detected — "
      ++ "analysis code must run through the sandbox, not via shell.",
    Severity.warning⟩,
   ⟨"os\\.(system|popen|exec[lv]?[pe]?)\\s*\\(",
    "RIGOR WARNING: OS-level command execution detected — "
      ++ "use the sandbox for analysis code.",
    Severity.warning⟩,
   ⟨"powershell|cmd\\.exe|/bin/(ba)?sh",
    "RIGOR WARNING: Direct shell invocation detected — "
      ++ "all analysis must go through the sandbox.",
    Severity.warning⟩]

/-- Embedding of `DEFAULT_WARNING_PATTERNS` (`scanner.py`): the three shipped
warning-origin rules. -/
def DEFAULT_WARNING_PATTERNS : List PatternRule :=
  [⟨"np\\.random\\.seed",
    "Random seed set — ensure this is for reproducibility, not cherry-picking.",
    Severity.warning⟩,
   ⟨"outlier.*remove|remove.*outlier",
    "Outlier removal detected — document criteria and report how many removed.",
    Severity.warning⟩,
   ⟨"exclude|skip|ignore",
    "Data exclusion detected — document criteria and report what was excluded.",
    Severity.warning⟩]

/-- Embedding of `CodeScanner.__init__`: a scanner at the given level with the default
rule lists. -/
def CodeScanner.init (rigor_level : RigorLevel) : CodeScanner :=
  { rigor_level := rigor_level
    forbidden := DEFAULT_FORBIDDEN_PATTERNS
    warningRules := DEFAULT_WARNING_PATTERNS }

/-- Concrete matcher fixture: `re.search` matches exactly the CRITICAL
"result forced to expected value" pattern against the text
`result = expected` (which the real regex indeed matches) and nothing
else. -/
def mCrit : Matcher := fun p c =>
  decide (p = "result\\s*=\\s*(expected|hypothesis|target)" ∧ c = "result = expected")

/-- Concrete matcher fixture: exactly the random-seed WARNING pattern
matches against `np.random.seed(42)`. -/
def mSeed : Matcher := fun p c =>
  decide (p = "np\\.random\\.seed" ∧ c = "np.random.seed(42)")

/-- Concrete matcher fixture: nothing matches. -/
def mNone : Matcher := fun _ _ => false

/-- Concrete runner fixture: the code runs without raising, with empty
captured streams. -/
def runOk : Runner := fun _ =>
  { raised := false, stdoutText := "", stderrText := "", errText := "",
    variablesOut := [], figures := [] }

/-- Concrete md5-prefix fixture. -/
def md6 : String → String := fun _ => "abcdef"

/-- Concrete float-formatter fixture. -/
def fmt0 : ℚ → String := fun _ => "25.0"

/-- Concrete smoothness-statistic fixture: nothing is suspiciously
smooth. -/
def smoothNo : List ℚ → Bool := fun _ => false

/-- Idealised zero-std fixture: the exact-variance test.  At the concrete
witness inputs below it agrees with the IEEE-754 check, because their
means compute exactly in doubles. -/
def stdZeroQ : List ℚ → Bool := fun l => decide (qvariance l = 0)

/-- Value of the float zero-variance check `np.std(clean) == 0` at the
finite entries `[0.1, 0.1, 0.1]`: the double-precision mean of three 0.1s
rounds to 0.10000000000000002, the standard deviation evaluates to about
1.39e-17, and the comparison is false.  The counterexample consults this
oracle only at that input. -/
def stdZeroFloat01 : List ℚ → Bool := fun _ => false

/-- A fresh session log. -/
def emptyLog : SessionLog := { entries := [], loaded_files := [], script_exported := false }

lemma bucketMsgs_strict_confirm (rmatch : Matcher) (code : String)
    (rules : List PatternRule) :
    bucketMsgs rmatch RigorLevel.strict code rules Bucket.confirm = [] := by
  simp [bucketMsgs, routeBucket, List.filterMap_eq_nil_iff]

lemma check_eq_of_not_bypass (rmatch : Matcher) (s : CodeScanner) (code : String)
    (hb : s.rigor_level ≠ RigorLevel.bypass) :
    s.check rmatch code =
      { passed := (bucketMsgs rmatch s.rigor_level code
          (s.forbidden ++ s.warningRules) Bucket.violation).isEmpty
        violations := bucketMsgs rmatch s.rigor_level code
          (s.forbidden ++ s.warningRules) Bucket.violation
        needs_confirmation := bucketMsgs rmatch s.rigor_level code
          (s.forbidden ++ s.warningRules) Bucket.confirm
        warnings := bucketMsgs rmatch s.rigor_level code
          (s.forbidden ++ s.warningRules) Bucket.warn } := by
  have hfold := classify_foldl_eq rmatch s.rigor_level code
    (s.forbidden ++ s.warningRules) ([], [], [])
  simp only [CodeScanner.check, hb, if_false, hfold]
  simp

/-- Claim C3: for every rule set and every input text, `CodeScanner.check`
routes each matching rule's message by the (level, severity) table
(`bucketMsgs`/`routeBucket`: STRICT sends everything to violations,
STANDARD sends CRITICAL to violations and WARNING to needs-confirmation,
RELAXED sends CRITICAL to needs-confirmation and WARNING to warnings),
while BYPASS returns three empty lists; STRICT always leaves
needs-confirmation empty, and `passed` holds exactly when the violations
list is empty. -/
theorem check_routing (rmatch : Matcher) (s : CodeScanner) (code : String) :
    (s.rigor_level ≠ RigorLevel.bypass →
        (s.check rmatch code).violations
          = bucketMsgs rmatch s.rigor_level code (s.forbidden ++ s.warningRules) Bucket.violation
        ∧ (s.check rmatch code).needs_confirmation
          = bucketMsgs rmatch s.rigor_level code (s.forbidden ++ s.warningRules) Bucket.confirm
        ∧ (s.check rmatch code).warnings
          = bucketMsgs rmatch s.rigor_level code (s.forbidden ++ s.warningRules) Bucket.warn)
    ∧ (s.rigor_level = RigorLevel.bypass →
        (s.check rmatch code).violations = []
        ∧ (s.check rmatch code).needs_confirmation = []
        ∧ (s.check rmatch code).warnings = [])
    ∧ (s.rigor_level = RigorLevel.strict →
        (s.check rmatch code).needs_confirmation = [])
    ∧ ((s.check rmatch code).passed = true ↔ (s.check rmatch code).violations = []) := by
  by_cases hb : s.rigor_level = RigorLevel.bypass
  · refine ⟨fun h => absurd hb h, fun _ => ?_, fun hs => ?_, ?_⟩
    · simp [CodeScanner.check, hb]
    · rw [hs] at hb; exact absurd hb (by simp)
    · simp [CodeScanner.check, hb]
  · rw [check_eq_of_not_bypass rmatch s code hb]
    refine ⟨fun _ => ⟨rfl, rfl, rfl⟩, fun h => absurd h hb, fun hs => ?_, ?_⟩
    · rw [hs]; exact bucketMsgs_strict_confirm rmatch code _
    · exact List.isEmpty_iff

/-- Witness for `check_routing` at a concrete scanner: the BYPASS scanner
and the non-bypass STANDARD scanner with no matching rule. -/
theorem check_routing_witness :
    (CodeScanner.check mNone (CodeScanner.init RigorLevel.bypass) "x").violations = []
    ∧ (CodeScanner.check mNone (CodeScanner.init RigorLevel.bypass) "x").passed = true := by
  have h := check_routing mNone (CodeScanner.init RigorLevel.bypass) "x"
  exact ⟨(h.2.1 rfl).1, h.2.2.2.mpr (h.2.1 rfl).1⟩

lemma mem_bucketMsgs_of_rule (rmatch : Matcher) (level : RigorLevel)
    (code : String) (rules : List PatternRule) (r : PatternRule) (b : Bucket)
    (hr : r ∈ rules) (hm : rmatch r.pattern code = true)
    (hb : routeBucket level r.severity = some b) :
    r.message ∈ bucketMsgs rmatch level code rules b := by
  simp only [bucketMsgs, List.mem_filterMap, List.mem_filter]
  exact ⟨r, ⟨hr, hm⟩, by simp [hb]⟩

lemma bucketMsgs_relaxed_violation (rmatch : Matcher) (code : String)
    (rules : List PatternRule) :
    bucketMsgs rmatch RigorLevel.relaxed code rules Bucket.violation = [] := by
  simp only [bucketMsgs, List.filterMap_eq_nil_iff]
  intro r _
  cases hs : r.severity <;> simp [routeBucket, hs]

lemma isEmpty_false_of_mem {α : Type} {x : α} {l : List α} (h : x ∈ l) :
    l.isEmpty = false := by
  cases l with
  | nil => cases h
  | cons a as => rfl

/-- Claim C1 (amended): a code text matching a CRITICAL-severity rule is
blocked before execution under STRICT and STANDARD for *every* value of
`confirmed` (the violation surfaced in the error and in
`rigor_warnings`, filesystem and log untouched); under RELAXED, however,
the CRITICAL match is only routed to needs-confirmation, so it blocks
only while `confirmed = false` — confirmation *does* unblock a CRITICAL
match at RELAXED level, contrary to the original claim. -/
theorem execute_code_critical_block (rmatch : Matcher) (md5_6 : String → String)
    (fmtQ : ℚ → String) (smooth stdZero : List ℚ → Bool) (run : Runner)
    (code : String) (context : List (String × CtxVal))
    (inject hasDir : Bool) (stamp now : String)
    (s : CodeScanner) (fs : FileSys) (log : SessionLog) (confirmed : Bool)
    (r : PatternRule) (out : ExecOutput)
    (hout : out = execute_code rmatch md5_6 fmtQ smooth stdZero run code context true
      inject hasDir stamp now s fs log confirmed)
    (hr : r ∈ s.forbidden ++ s.warningRules)
    (hsev : r.severity = Severity.critical)
    (hm : rmatch r.pattern code = true) :
    ((s.rigor_level = RigorLevel.strict ∨ s.rigor_level = RigorLevel.standard) →
        out.executed = false
        ∧ out.res.success = false
        ∧ r.message ∈ (s.check rmatch code).violations
        ∧ out.res.error = some ("SCIENTIFIC RIGOR VIOLATION — Code blocked:\n"
            ++ joinNL (s.check rmatch code).violations)
        ∧ out.res.rigor_warnings = some (s.check rmatch code).violations
        ∧ out.fs = fs ∧ out.log = log)
    ∧ (s.rigor_level = RigorLevel.relaxed → confirmed = false →
        out.executed = false
        ∧ out.res.success = false
        ∧ out.res.needs_confirmation = true
        ∧ r.message ∈ (s.check rmatch code).needs_confirmation
        ∧ out.fs = fs ∧ out.log = log) := by
  constructor
  · intro hlev
    have hnb : s.rigor_level ≠ RigorLevel.bypass := by
      rcases hlev with h | h <;> rw [h] <;> simp
    have hroute : routeBucket s.rigor_level r.severity = some Bucket.violation := by
      rcases hlev with h | h <;> rw [h, hsev] <;> rfl
    have hviol : r.message ∈ (s.check rmatch code).violations := by
      rw [check_eq_of_not_bypass rmatch s code hnb]
      exact mem_bucketMsgs_of_rule rmatch s.rigor_level code _ r _ hr hm hroute
    have hpassed : (s.check rmatch code).passed = false := by
      rw [check_eq_of_not_bypass rmatch s code hnb] at hviol ⊢
      exact isEmpty_false_of_mem hviol
    subst hout
    simp only [execute_code]
    rw [if_pos (by refine ⟨?_, hpassed⟩; trivial)]
    exact ⟨rfl, rfl, hviol, rfl, rfl, rfl, rfl⟩
  · intro hlev hconf
    have hnb : s.rigor_level ≠ RigorLevel.bypass := by rw [hlev]; simp
    have hviolnil : bucketMsgs rmatch s.rigor_level code
        (s.forbidden ++ s.warningRules) Bucket.violation = [] := by
      rw [hlev]; exact bucketMsgs_relaxed_violation rmatch code _
    have hpassed : (s.check rmatch code).passed = true := by
      rw [check_eq_of_not_bypass rmatch s code hnb]
      simp [hviolnil]
    have hroute : routeBucket s.rigor_level r.severity = some Bucket.confirm := by
      rw [hlev, hsev]; rfl
    have hmem : r.message ∈ (s.check rmatch code).needs_confirmation := by
      rw [check_eq_of_not_bypass rmatch s code hnb]
      exact mem_bucketMsgs_of_rule rmatch s.rigor_level code _ r _ hr hm hroute
    have hne : (s.check rmatch code).needs_confirmation ≠ [] :=
      List.ne_nil_of_mem hmem
    subst hout hconf
    simp only [execute_code]
    rw [if_neg (by simp [hpassed]), if_pos (by refine ⟨?_, hne, ?_⟩ <;> trivial)]
    exact ⟨rfl, rfl, rfl, hmem, rfl, rfl⟩

/-- Claim C1 counterexample to the original claim: under RELAXED with
`confirmed = true`, code matching the CRITICAL "result forced to expected
value" rule *is* executed and succeeds — confirmation unblocks a CRITICAL
match at this level. -/
theorem execute_code_critical_block_cex :
    (execute_code mCrit md6 fmt0 smoothNo stdZeroQ runOk "result = expected" [] true true
        true "20250101_000000" "t" (CodeScanner.init RigorLevel.relaxed) []
        emptyLog true).executed = true
    ∧ (execute_code mCrit md6 fmt0 smoothNo stdZeroQ runOk "result = expected" [] true true
        true "20250101_000000" "t" (CodeScanner.init RigorLevel.relaxed) []
        emptyLog true).res.success = true := by
  exact ⟨rfl, rfl⟩

/-- Witness for `execute_code_critical_block`: the STANDARD scanner blocks
the CRITICAL match even with `confirmed = true`. -/
theorem execute_code_critical_block_witness :
    (execute_code mCrit md6 fmt0 smoothNo stdZeroQ runOk "result = expected" [] true true
        true "20250101_000000" "t" (CodeScanner.init RigorLevel.standard) []
        emptyLog true).executed = false
    ∧ (execute_code mCrit md6 fmt0 smoothNo stdZeroQ runOk "result = expected" [] true true
        true "20250101_000000" "t" (CodeScanner.init RigorLevel.standard) []
        emptyLog true).res.success = false := by
  have h := execute_code_critical_block mCrit md6 fmt0 smoothNo stdZeroQ runOk
    "result = expected" [] true true "20250101_000000" "t"
    (CodeScanner.init RigorLevel.standard) [] emptyLog true
    ⟨"result\\s*=\\s*(expected|hypothesis|target)",
     "RIGOR VIOLATION: Result forced to match expected/hypothesis value.",
     Severity.critical⟩ _ rfl (by decide) rfl (by decide)
  exact ⟨(h.1 (Or.inr rfl)).1, (h.1 (Or.inr rfl)).2.1⟩

lemma length_filter_success_add (l : List SessionLogEntry) :
    (l.filter (fun e => e.success)).length
      + (l.filter (fun e => !e.success)).length = l.length := by
  induction l with
  | nil => rfl
  | cons e es ih =>
    cases h : e.success <;> simp [List.filter_cons, h] <;> omega

/-- Claim C2 (amended): an `execute_code` call appends exactly one
`SessionLogEntry` when (and only when) it reaches execution; a call
blocked before execution — rigor violation, pending confirmation, or
data-integrity failure — leaves the session log untouched.  In every
case the summary satisfies `successful_steps + failed_steps ==
total_steps`; hence after N calls `total_steps` equals the number of
calls that reached execution, not N. -/
theorem execute_code_log_append (rmatch : Matcher) (md5_6 : String → String)
    (fmtQ : ℚ → String) (smooth stdZero : List ℚ → Bool) (run : Runner)
    (code : String) (context : List (String × CtxVal))
    (enforce_rigor inject hasDir : Bool) (stamp now : String)
    (s : CodeScanner) (fs : FileSys) (log : SessionLog) (confirmed : Bool)
    (out : ExecOutput)
    (hout : out = execute_code rmatch md5_6 fmtQ smooth stdZero run code context
      enforce_rigor inject hasDir stamp now s fs log confirmed) :
    (out.executed = true → out.log.entries.length = log.entries.length + 1)
    ∧ (out.executed = false → out.log = log)
    ∧ out.log.summary.successful_steps + out.log.summary.failed_steps
      = out.log.summary.total_steps := by
  subst hout
  simp only [execute_code]
  by_cases h1 : enforce_rigor = true ∧ (s.check rmatch code).passed = false
  · rw [if_pos h1]
    refine ⟨fun h => ?_, fun _ => ?_, ?_⟩
    · cases h
    · rfl
    · exact length_filter_success_add _
  · rw [if_neg h1]
    by_cases h2 : enforce_rigor = true
      ∧ (s.check rmatch code).needs_confirmation ≠ [] ∧ confirmed = false
    · rw [if_pos h2]
      refine ⟨fun h => ?_, fun _ => ?_, ?_⟩
      · cases h
      · rfl
      · exact length_filter_success_add _
    · rw [if_neg h2]
      cases hscan : integrityScan fmtQ smooth stdZero context with
      | error issues =>
          simp only [hscan]
          refine ⟨fun h => ?_, fun _ => ?_, ?_⟩
          · cases h
          · trivial
          · exact length_filter_success_add _
      | ok ws =>
          simp only [hscan]
          refine ⟨?_, ?_, ?_⟩
          · intro _; simp [SessionLog.record]
          · intro h; cases h
          · exact length_filter_success_add _

/-- Witness for `execute_code_log_append`: a benign executed call appends
one entry to the empty log. -/
theorem execute_code_log_append_witness :
    (execute_code mNone md6 fmt0 smoothNo stdZeroQ runOk "x = 1" [] true true true
        "20250101_000000" "t" (CodeScanner.init RigorLevel.standard) []
        emptyLog false).log.entries.length = emptyLog.entries.length + 1 :=
  (execute_code_log_append mNone md6 fmt0 smoothNo stdZeroQ runOk "x = 1" [] true true
    true "20250101_000000" "t" (CodeScanner.init RigorLevel.standard) []
    emptyLog false _ rfl).1 rfl

/-- Claim C2 counterexample to the original claim: a call blocked by a
CRITICAL rigor violation appends *no* `SessionLogEntry` — after this one
call the log still has zero entries and `summary.total_steps = 0`, not
1. -/
theorem execute_code_log_append_cex :
    (execute_code mCrit md6 fmt0 smoothNo stdZeroQ runOk "result = expected" [] true true
        true "20250101_000000" "t" (CodeScanner.init RigorLevel.standard) []
        emptyLog false).log.entries.length = 0
    ∧ (execute_code mCrit md6 fmt0 smoothNo stdZeroQ runOk "result = expected" [] true true
        true "20250101_000000" "t" (CodeScanner.init RigorLevel.standard) []
        emptyLog false).log.summary.total_steps = 0 := by
  exact ⟨rfl, rfl⟩

/-- The rules of the scanner whose pattern matches the code (spec-side
shorthand used to state properties about `check`). -/
def matchedRules (rmatch : Matcher) (s : CodeScanner) (code : String) :
    List PatternRule :=
  (s.forbidden ++ s.warningRules).filter (fun r => rmatch r.pattern code)

lemma filterMap_confirm_eq_map (l : List PatternRule)
    (h : ∀ r ∈ l, r.severity = Severity.warning) :
    l.filterMap (fun r =>
      if routeBucket RigorLevel.standard r.severity = some Bucket.confirm
      then some r.message else none)
      = l.map PatternRule.message := by
  induction l with
  | nil => rfl
  | cons r rs ih =>
    have hr := h r (List.mem_cons_self r rs)
    have ht := ih (fun x hx => h x (List.mem_cons_of_mem r hx))
    rw [List.filterMap_cons, ht, hr]
    rfl

lemma bucketMsgs_standard_warn (rmatch : Matcher) (code : String)
    (rules : List PatternRule) :
    bucketMsgs rmatch RigorLevel.standard code rules Bucket.warn = [] := by
  simp only [bucketMsgs, List.filterMap_eq_nil_iff]
  intro r _
  cases hs : r.severity <;> simp [routeBucket, hs]

lemma check_standard_all_warning (rmatch : Matcher) (s : CodeScanner)
    (code : String)
    (hstd : s.rigor_level = RigorLevel.standard)
    (hall : ∀ r ∈ matchedRules rmatch s code, r.severity = Severity.warning) :
    s.check rmatch code =
      { passed := true
        violations := []
        needs_confirmation := (matchedRules rmatch s code).map PatternRule.message
        warnings := [] } := by
  have hnb : s.rigor_level ≠ RigorLevel.bypass := by rw [hstd]; simp
  have hviol : bucketMsgs rmatch s.rigor_level code
      (s.forbidden ++ s.warningRules) Bucket.violation = [] := by
    rw [hstd]
    simp only [bucketMsgs, List.filterMap_eq_nil_iff]
    intro r hr
    rw [hall r hr]
    simp [routeBucket]
  have hconf : bucketMsgs rmatch s.rigor_level code
      (s.forbidden ++ s.warningRules) Bucket.confirm
      = (matchedRules rmatch s code).map PatternRule.message := by
    rw [hstd]
    exact filterMap_confirm_eq_map _ hall
  rw [check_eq_of_not_bypass rmatch s code hnb, hviol, hconf]
  rw [show s.rigor_level = RigorLevel.standard from hstd]
  rw [bucketMsgs_standard_warn]
  rfl

lemma needs_confirmation_not_success (rmatch : Matcher) (md5_6 : String → String)
    (fmtQ : ℚ → String) (smooth stdZero : List ℚ → Bool) (run : Runner)
    (code : String) (context : List (String × CtxVal))
    (enforce_rigor inject hasDir : Bool) (stamp now : String)
    (s : CodeScanner) (fs : FileSys) (log : SessionLog) (confirmed : Bool)
    (out : ExecOutput)
    (hout : out = execute_code rmatch md5_6 fmtQ smooth stdZero run code context
      enforce_rigor inject hasDir stamp now s fs log confirmed) :
    out.res.needs_confirmation = true → out.res.success = false := by
  subst hout
  simp only [execute_code]
  by_cases h1 : enforce_rigor = true ∧ (s.check rmatch code).passed = false
  · rw [if_pos h1]; intro h; cases h
  · rw [if_neg h1]
    by_cases h2 : enforce_rigor = true
      ∧ (s.check rmatch code).needs_confirmation ≠ [] ∧ confirmed = false
    · rw [if_pos h2]; intro _; rfl
    · rw [if_neg h2]
      cases hscan : integrityScan fmtQ smooth stdZero context with
      | error issues => simp only [hscan]; intro h; cases h
      | ok ws =>
          simp only [hscan]
          by_cases hr : (run (if inject = true then SANITY_CHECK_HEADER ++ code
            else code)).raised
          · simp only [hr, if_true, reduceIte]; intro h; cases h
          · simp only [hr, Bool.false_eq_true, if_false, reduceIte]
            intro h; cases h

/-- Claim C6: under STANDARD level, for code matching only WARNING-severity
rules (at least one) whose context passes the integrity scan:
`execute_code` with `confirmed = false` returns `success = false`,
`needs_confirmation = true`, `rigor_warnings` equal to the matched
messages and the re-invocation instruction message, without executing;
the identical call with `confirmed = true` proceeds to execution; and in
every `ExecutionResult`, `needs_confirmation = true` implies
`success = false`. -/
theorem execute_code_two_phase (rmatch : Matcher) (md5_6 : String → String)
    (fmtQ : ℚ → String) (smooth stdZero : List ℚ → Bool) (run : Runner)
    (code : String) (context : List (String × CtxVal))
    (inject hasDir : Bool) (stamp now : String)
    (s : CodeScanner) (fs : FileSys) (log : SessionLog)
    (outF outT : ExecOutput)
    (houtF : outF = execute_code rmatch md5_6 fmtQ smooth stdZero run code context
      true inject hasDir stamp now s fs log false)
    (houtT : outT = execute_code rmatch md5_6 fmtQ smooth stdZero run code context
      true inject hasDir stamp now s fs log true)
    (hstd : s.rigor_level = RigorLevel.standard)
    (hall : ∀ r ∈ matchedRules rmatch s code, r.severity = Severity.warning)
    (hne : matchedRules rmatch s code ≠ [])
    (iws : List String)
    (hint : integrityScan fmtQ smooth stdZero context = Except.ok iws) :
    outF.res.success = false
    ∧ outF.res.needs_confirmation = true
    ∧ outF.res.rigor_warnings
        = some ((matchedRules rmatch s code).map PatternRule.message)
    ∧ outF.res.message
        = some (confirmMessage ((matchedRules rmatch s code).map PatternRule.message))
    ∧ outF.executed = false
    ∧ outT.executed = true
    ∧ (∀ (rm : Matcher) (md : String → String) (fq : ℚ → String)
         (sm sz : List ℚ → Bool) (rn : Runner) (cd : String)
         (cx : List (String × CtxVal)) (er ic hd : Bool) (st nw : String)
         (s2 : CodeScanner) (f2 : FileSys) (l2 : SessionLog) (cf : Bool),
         (execute_code rm md fq sm sz rn cd cx er ic hd st nw s2 f2 l2 cf).res.needs_confirmation = true →
         (execute_code rm md fq sm sz rn cd cx er ic hd st nw s2 f2 l2 cf).res.success = false) := by
  have hchk := check_standard_all_warning rmatch s code hstd hall
  have hmapne : (matchedRules rmatch s code).map PatternRule.message ≠ [] := by
    intro hmap
    exact hne (List.map_eq_nil_iff.mp hmap)
  have hF : outF.res.success = false ∧ outF.res.needs_confirmation = true
      ∧ outF.res.rigor_warnings
          = some ((matchedRules rmatch s code).map PatternRule.message)
      ∧ outF.res.message
          = some (confirmMessage ((matchedRules rmatch s code).map PatternRule.message))
      ∧ outF.executed = false := by
    subst houtF
    simp only [execute_code]
    rw [hchk]
    rw [if_neg (by simp), if_pos (by refine ⟨?_, hmapne, ?_⟩ <;> trivial)]
    exact ⟨rfl, rfl, rfl, rfl, rfl⟩
  have hT : outT.executed = true := by
    subst houtT
    simp only [execute_code]
    rw [hchk]
    rw [if_neg (by simp), if_neg (by simp)]
    simp only [hint]
  exact ⟨hF.1, hF.2.1, hF.2.2.1, hF.2.2.2.1, hF.2.2.2.2, hT,
    fun rm md fq sm sz rn cd cx er ic hd st nw s2 f2 l2 cf =>
      needs_confirmation_not_success rm md fq sm sz rn cd cx er ic hd st nw
        s2 f2 l2 cf _ rfl⟩

/-- Witness for `execute_code_two_phase`: the STANDARD scanner with the
random-seed WARNING rule matched suspends the unconfirmed call and
executes the confirmed one. -/
theorem execute_code_two_phase_witness :
    (execute_code mSeed md6 fmt0 smoothNo stdZeroQ runOk "np.random.seed(42)" [] true
        true true "20250101_000000" "t" (CodeScanner.init RigorLevel.standard)
        [] emptyLog false).res.needs_confirmation = true
    ∧ (execute_code mSeed md6 fmt0 smoothNo stdZeroQ runOk "np.random.seed(42)" [] true
        true true "20250101_000000" "t" (CodeScanner.init RigorLevel.standard)
        [] emptyLog true).executed = true := by
  have h := execute_code_two_phase mSeed md6 fmt0 smoothNo stdZeroQ runOk
    "np.random.seed(42)" [] true true "20250101_000000" "t"
    (CodeScanner.init RigorLevel.standard) [] emptyLog _ _ rfl rfl rfl
    (by decide) (by decide) [] rfl
  exact ⟨h.2.1, h.2.2.2.2.2.1⟩

lemma fsRead_fsWrite_self (fs : FileSys) (p : FileName) (c : String) :
    fsRead (fsWrite fs p c) p = some c := by
  unfold fsRead fsWrite
  induction fs with
  | nil => simp
  | cons kv t ih =>
    by_cases h : kv.1 = p
    · simp [List.filter_cons, h]
    · simp [List.filter_cons, h, List.find?_cons]

/-- Claim C4 (amended): whenever `execute_code` reaches the archiving step,
the text persisted into the script archive is the code *as executed* —
the submitted text with the sanity-check preamble prepended when
`inject_sanity_checks` is set (the submitted text exactly only when it is
off) — and the archived content is the same for every possible run
outcome, i.e. it is written independently of whether the subsequent
execution succeeds or raises. -/
theorem execute_code_archive_content (rmatch : Matcher) (md5_6 : String → String)
    (fmtQ : ℚ → String) (smooth stdZero : List ℚ → Bool) (run : Runner)
    (code : String) (context : List (String × CtxVal))
    (enforce_rigor inject hasDir : Bool) (stamp now : String)
    (s : CodeScanner) (fs : FileSys) (log : SessionLog) (confirmed : Bool)
    (out : ExecOutput)
    (hout : out = execute_code rmatch md5_6 fmtQ smooth stdZero run code context
      enforce_rigor inject hasDir stamp now s fs log confirmed)
    (hdir : hasDir = true)
    (hexec : out.executed = true) :
    fsRead out.fs (FileName.scriptArchive stamp
        (md5_6 (if inject = true then SANITY_CHECK_HEADER ++ code else code)))
      = some (if inject = true then SANITY_CHECK_HEADER ++ code else code) := by
  subst hout hdir
  simp only [execute_code] at hexec ⊢
  by_cases h1 : enforce_rigor = true ∧ (s.check rmatch code).passed = false
  · rw [if_pos h1] at hexec; cases hexec
  · rw [if_neg h1] at hexec ⊢
    by_cases h2 : enforce_rigor = true
      ∧ (s.check rmatch code).needs_confirmation ≠ [] ∧ confirmed = false
    · rw [if_pos h2] at hexec; cases hexec
    · rw [if_neg h2] at hexec ⊢
      cases hscan : integrityScan fmtQ smooth stdZero context with
      | error issues => simp [hscan] at hexec
      | ok ws =>
          simp only [hscan]
          simp only [save_script]
          rw [if_neg (by simp)]
          exact fsRead_fsWrite_self fs _ _

/-- Witness for `execute_code_archive_content`: an executed call with
injection on leaves the preamble-prefixed text in the archive. -/
theorem execute_code_archive_content_witness :
    fsRead (execute_code mNone md6 fmt0 smoothNo stdZeroQ runOk "x = 1" [] true true
        true "20250101_000000" "t" (CodeScanner.init RigorLevel.standard) []
        emptyLog false).fs
      (FileName.scriptArchive "20250101_000000"
        (md6 (if true = true then SANITY_CHECK_HEADER ++ "x = 1" else "x = 1")))
      = some (if true = true then SANITY_CHECK_HEADER ++ "x = 1" else "x = 1") :=
  execute_code_archive_content mNone md6 fmt0 smoothNo stdZeroQ runOk "x = 1" [] true
    true true "20250101_000000" "t" (CodeScanner.init RigorLevel.standard) []
    emptyLog false _ rfl rfl rfl

/-- Claim C4 counterexample to the original claim: with the default
`inject_sanity_checks = true`, the archived text is the preamble-injected
code, *not* the pre-preamble code exactly as submitted. -/
theorem execute_code_archive_content_cex :
    fsRead (execute_code mNone md6 fmt0 smoothNo stdZeroQ runOk "x = 1" [] true true
        true "20250101_000000" "t" (CodeScanner.init RigorLevel.standard) []
        emptyLog false).fs
      (FileName.scriptArchive "20250101_000000" "abcdef")
      = some (SANITY_CHECK_HEADER ++ "x = 1")
    ∧ SANITY_CHECK_HEADER ++ "x = 1" ≠ "x = 1" := by
  exact ⟨rfl, by decide⟩

lemma fsCount_fsWrite_self (fs : FileSys) (p : FileName) (c : String) :
    fsCount (fsWrite fs p c) p = 1 := by
  have hfun : (fun kv : FileName × String =>
      decide (kv.1 = p) && decide (kv.1 ≠ p)) = (fun _ => false) := by
    funext kv
    by_cases hkv : kv.1 = p <;> simp [hkv]
  unfold fsCount fsWrite
  rw [List.filter_append, List.length_append, List.filter_filter, hfun]
  simp

lemma fsCount_fsWrite_other (fs : FileSys) (p q : FileName) (c : String)
    (h : q ≠ p) :
    fsCount (fsWrite fs p c) q = fsCount fs q := by
  have hpq : ¬ p = q := fun hh => h hh.symm
  have hfun : (fun kv : FileName × String =>
      decide (kv.1 = q) && decide (kv.1 ≠ p)) = (fun kv => decide (kv.1 = q)) := by
    funext kv
    by_cases hkv : kv.1 = q
    · simp only [hkv, decide_eq_true_eq]
      simp [h]
    · simp [hkv]
  unfold fsCount fsWrite
  rw [List.filter_append, List.length_append, List.filter_filter, hfun]
  simp [hpq]

/-- Claim C5 (amended): two `save_script` calls with the same code but
distinct timestamp strings create two distinct archive files, each present
exactly once; but the archive name has only second granularity — two
calls with identical code *and the same timestamp string* produce the
same file name, and the second call overwrites the first, leaving a
single file. -/
theorem save_script_two_calls (md5_6 : String → String)
    (stamp1 stamp2 code : String) (fs : FileSys)
    (hne : stamp1 ≠ stamp2) :
    fsCount ((save_script md5_6 stamp2 code true
        ((save_script md5_6 stamp1 code true fs).2)).2)
        (FileName.scriptArchive stamp1 (md5_6 code)) = 1
    ∧ fsCount ((save_script md5_6 stamp2 code true
        ((save_script md5_6 stamp1 code true fs).2)).2)
        (FileName.scriptArchive stamp2 (md5_6 code)) = 1
    ∧ FileName.scriptArchive stamp1 (md5_6 code)
        ≠ FileName.scriptArchive stamp2 (md5_6 code)
    ∧ fsCount ((save_script md5_6 stamp1 code true
        ((save_script md5_6 stamp1 code true fs).2)).2)
        (FileName.scriptArchive stamp1 (md5_6 code)) = 1 := by
  have hpq : FileName.scriptArchive stamp1 (md5_6 code)
      ≠ FileName.scriptArchive stamp2 (md5_6 code) := by
    intro h
    cases h
    exact hne rfl
  refine ⟨?_, ?_, hpq, ?_⟩
  · simp only [save_script]
    rw [if_neg (by simp), if_neg (by simp)]
    rw [fsCount_fsWrite_other _ _ _ _ hpq]
    exact fsCount_fsWrite_self fs _ _
  · simp only [save_script]
    rw [if_neg (by simp), if_neg (by simp)]
    exact fsCount_fsWrite_self _ _ _
  · simp only [save_script]
    rw [if_neg (by simp), if_neg (by simp)]
    exact fsCount_fsWrite_self _ _ _

/-- Witness for `save_script_two_calls` at concrete distinct stamps. -/
theorem save_script_two_calls_witness :
    fsCount ((save_script md6 "20250101_000001" "x = 1" true
        ((save_script md6 "20250101_000000" "x = 1" true []).2)).2)
        (FileName.scriptArchive "20250101_000000" (md6 "x = 1")) = 1
    ∧ fsCount ((save_script md6 "20250101_000001" "x = 1" true
        ((save_script md6 "20250101_000000" "x = 1" true []).2)).2)
        (FileName.scriptArchive "20250101_000001" (md6 "x = 1")) = 1 := by
  have h := save_script_two_calls md6 "20250101_000000" "20250101_000001"
    "x = 1" [] (by decide)
  exact ⟨h.1, h.2.1⟩

/-- Claim C5 counterexample to the original claim: two archivals of
identical code within the same clock second produce the *same* file name;
after both calls the archive holds one file, not two distinct ones. -/
theorem save_script_two_calls_cex :
    ((save_script md6 "20250101_000000" "x = 1" true
        ((save_script md6 "20250101_000000" "x = 1" true []).2)).2).length = 1 := by
  rfl

/-- Concrete parse-oracle fixture: every text parses. -/
def parseOk : ParseOracle := fun _ => none

/-- Concrete parse-oracle fixture: every text fails to parse at line 3. -/
def parseBad : ParseOracle := fun _ => some (3, "unexpected EOF")

/-- Claim C7: when the curated code fails to parse,
`save_reproducible_script` returns `success = false` with a message naming
the line and reason, writes nothing (filesystem unchanged) and leaves the
log, in particular its `script_exported` latch, unchanged. -/
theorem save_reproducible_script_syntax_error (parseErr : ParseOracle)
    (code filename : String) (hasDir : Bool) (fs : FileSys) (log : SessionLog)
    (lineno : Nat) (msg : String)
    (hparse : parseErr code = some (lineno, msg)) :
    (save_reproducible_script parseErr code filename hasDir fs log).1.success = false
    ∧ (save_reproducible_script parseErr code filename hasDir fs log).1.message
        = "Script has a syntax error at line " ++ toString lineno ++ ": " ++ msg
    ∧ (save_reproducible_script parseErr code filename hasDir fs log).2.1 = fs
    ∧ (save_reproducible_script parseErr code filename hasDir fs log).2.2 = log := by
  simp only [save_reproducible_script, hparse]
  refine ⟨?_, ?_, ?_, ?_⟩ <;> trivial

/-- Witness for `save_reproducible_script_syntax_error` at a concrete
failing parse. -/
theorem save_reproducible_script_syntax_error_witness :
    (save_reproducible_script parseBad "def f(:" "out.py" true [] emptyLog).1.success = false
    ∧ (save_reproducible_script parseBad "def f(:" "out.py" true [] emptyLog).2.1 = [] :=
  ⟨(save_reproducible_script_syntax_error parseBad "def f(:" "out.py" true []
      emptyLog 3 "unexpected EOF" rfl).1,
   (save_reproducible_script_syntax_error parseBad "def f(:" "out.py" true []
      emptyLog 3 "unexpected EOF" rfl).2.2.1⟩

/-- Claim C8: two syntactically valid exports under the same filename
overwrite: after both calls exactly one file with that name exists under
the output directory, its content is the second call's code, both calls
succeed, and each successful export sets the `script_exported` latch. -/
theorem save_reproducible_script_idempotent (parseErr : ParseOracle)
    (c1 c2 filename : String) (fs : FileSys) (log : SessionLog)
    (h1 : parseErr c1 = none) (h2 : parseErr c2 = none) :
    (save_reproducible_script parseErr c1 filename true fs log).1.success = true
    ∧ (save_reproducible_script parseErr c2 filename true
        (save_reproducible_script parseErr c1 filename true fs log).2.1
        (save_reproducible_script parseErr c1 filename true fs log).2.2).1.success = true
    ∧ fsCount (save_reproducible_script parseErr c2 filename true
        (save_reproducible_script parseErr c1 filename true fs log).2.1
        (save_reproducible_script parseErr c1 filename true fs log).2.2).2.1
        (FileName.outputFile filename) = 1
    ∧ fsRead (save_reproducible_script parseErr c2 filename true
        (save_reproducible_script parseErr c1 filename true fs log).2.1
        (save_reproducible_script parseErr c1 filename true fs log).2.2).2.1
        (FileName.outputFile filename) = some c2
    ∧ (save_reproducible_script parseErr c1 filename true fs log).2.2.script_exported = true
    ∧ (save_reproducible_script parseErr c2 filename true
        (save_reproducible_script parseErr c1 filename true fs log).2.1
        (save_reproducible_script parseErr c1 filename true fs log).2.2).2.2.script_exported = true := by
  simp only [save_reproducible_script, h1, h2]
  rw [if_neg (by simp), if_neg (by simp)]
  refine ⟨?_, ?_, fsCount_fsWrite_self _ _ _, fsRead_fsWrite_self _ _ _, ?_, ?_⟩
    <;> trivial

/-- Witness for `save_reproducible_script_idempotent` at two concrete
scripts. -/
theorem save_reproducible_script_idempotent_witness :
    fsRead (save_reproducible_script parseOk "y = 2" "reproducible_analysis.py" true
        (save_reproducible_script parseOk "x = 1" "reproducible_analysis.py" true [] emptyLog).2.1
        (save_reproducible_script parseOk "x = 1" "reproducible_analysis.py" true [] emptyLog).2.2).2.1
        (FileName.outputFile "reproducible_analysis.py") = some "y = 2"
    ∧ fsCount (save_reproducible_script parseOk "y = 2" "reproducible_analysis.py" true
        (save_reproducible_script parseOk "x = 1" "reproducible_analysis.py" true [] emptyLog).2.1
        (save_reproducible_script parseOk "x = 1" "reproducible_analysis.py" true [] emptyLog).2.2).2.1
        (FileName.outputFile "reproducible_analysis.py") = 1 :=
  ⟨(save_reproducible_script_idempotent parseOk "x = 1" "y = 2"
      "reproducible_analysis.py" [] emptyLog rfl rfl).2.2.2.1,
   (save_reproducible_script_idempotent parseOk "x = 1" "y = 2"
      "reproducible_analysis.py" [] emptyLog rfl rfl).2.2.1⟩

lemma isEmpty_append_right {α : Type} (l1 l2 : List α) (h : l2.isEmpty = false) :
    (l1 ++ l2).isEmpty = false := by
  cases l1 <;> cases l2 <;> simp_all

lemma isEmpty_append_left {α : Type} (l1 l2 : List α) (h : l1.isEmpty = false) :
    (l1 ++ l2).isEmpty = false := by
  cases l1 <;> simp_all

lemma qmean_const (l : List ℚ) (q : ℚ) (hl : l ≠ []) (h : ∀ x ∈ l, x = q) :
    qmean l = q := by
  unfold qmean
  rw [List.sum_eq_card_nsmul l q h, nsmul_eq_mul]
  have hn : (l.length : ℚ) ≠ 0 :=
    Nat.cast_ne_zero.mpr (List.length_pos.mpr hl).ne'
  field_simp

lemma qvariance_const (l : List ℚ) (q : ℚ) (hl : l ≠ []) (h : ∀ x ∈ l, x = q) :
    qvariance l = 0 := by
  unfold qvariance
  rw [qmean_const l q hl h]
  have hmap : l.map (fun x => (x - q) ^ 2) = l.map (fun _ => (0 : ℚ)) := by
    apply List.map_congr_left
    intro x hx
    rw [h x hx]
    ring
  rw [hmap]
  simp

lemma cleanVals_const (arr : List FVal) (q : ℚ)
    (h : ∀ v ∈ arr, v = FVal.val q) :
    cleanVals arr = arr.map (fun _ => q) := by
  unfold cleanVals
  induction arr with
  | nil => rfl
  | cons v t ih =>
    have ht := ih (fun x hx => h x (List.mem_cons_of_mem v hx))
    rw [List.filterMap_cons, ht, h v (List.mem_cons_self v t)]
    rfl

/-- Claim C9 (amended): `validate_data_integrity` reports `valid = false`
for every non-empty all-zero array, every non-empty all-NaN array, and
every non-empty constant non-zero array on which the floating-point
zero-variance check `np.std(clean) == 0` fires — which it does whenever
the double-precision mean of the constant computes exactly (for example
integer-valued constants), but not for every constant array (see the
counterexample at `[0.1, 0.1, 0.1]`); and for an array that contains
some NaN below the 50% threshold and has no other defect (no
infinities, zero-variance check not firing) it reports `valid = true`
with an empty issues list and a non-empty warnings list. -/
theorem validate_data_integrity_cases (fmtQ : ℚ → String)
    (smooth stdZero : List ℚ → Bool) (name : String) :
    (∀ arr : List FVal, arr ≠ [] → (∀ v ∈ arr, v = FVal.val 0) →
        (validate_data_integrity fmtQ smooth stdZero arr name).valid = false)
    ∧ (∀ arr : List FVal, arr ≠ [] → (∀ v ∈ arr, v = FVal.nan) →
        (validate_data_integrity fmtQ smooth stdZero arr name).valid = false)
    ∧ (∀ (arr : List FVal) (q : ℚ), q ≠ 0 → arr ≠ [] →
        (∀ v ∈ arr, v = FVal.val q) →
        stdZero (cleanVals arr) = true →
        (validate_data_integrity fmtQ smooth stdZero arr name).valid = false)
    ∧ (∀ arr : List FVal,
        0 < (arr.filter FVal.isNaN).length →
        100 * ((arr.filter FVal.isNaN).length : ℚ) / arr.length < 50 →
        arr.filter FVal.isInf = [] →
        stdZero (cleanVals arr) = false →
        (validate_data_integrity fmtQ smooth stdZero arr name).valid = true
        ∧ (validate_data_integrity fmtQ smooth stdZero arr name).issues = []
        ∧ (validate_data_integrity fmtQ smooth stdZero arr name).warnings ≠ []) := by
  refine ⟨?_, ?_, ?_, ?_⟩
  · intro arr hne hall
    have hz : arr.all FVal.eqZero = true := by
      rw [List.all_eq_true]
      intro v hv
      rw [hall v hv]
      rfl
    simp only [validate_data_integrity, hz, eq_self_iff_true, if_true]
    exact isEmpty_append_right _ _ rfl
  · intro arr hne hall
    have hfil : arr.filter FVal.isNaN = arr :=
      List.filter_eq_self.mpr (fun v hv => by rw [hall v hv]; rfl)
    have hlen : 0 < arr.length := List.length_pos.mpr hne
    have hlenq : (arr.length : ℚ) ≠ 0 := Nat.cast_ne_zero.mpr hlen.ne'
    simp only [validate_data_integrity, hfil]
    rw [if_pos hlen]
    have h100 : (100 : ℚ) * (arr.length : ℚ) / (arr.length : ℚ) = 100 := by
      field_simp
    rw [h100]
    rw [if_pos (show 0 < arr.length ∧ (50 : ℚ) < 100 from ⟨hlen, by norm_num⟩)]
    rfl
  · intro arr q hq hne hall hstd0
    have hclean := cleanVals_const arr q hall
    have hlen : 0 < arr.length := List.length_pos.mpr hne
    have hlenm : 0 < (arr.map (fun _ => q)).length := by
      simpa using hlen
    simp only [validate_data_integrity, hclean]
    rw [if_pos (show 0 < (arr.map (fun _ => q)).length
        ∧ stdZero (arr.map (fun _ => q)) = true from ⟨hlenm, hclean ▸ hstd0⟩)]
    exact isEmpty_append_left _ _ (isEmpty_append_right _ _ rfl)
  · intro arr hk hpct hinf hstd
    have hlen : 0 < arr.length := lt_of_lt_of_le hk (List.length_filter_le _ _)
    have hall0 : arr.all FVal.eqZero = false := by
      rw [List.all_eq_false]
      have hfne : arr.filter FVal.isNaN ≠ [] := List.ne_nil_of_length_pos hk
      obtain ⟨v, hv⟩ := List.exists_mem_of_ne_nil _ hfne
      refine ⟨v, List.mem_of_mem_filter hv, ?_⟩
      have hnan := List.of_mem_filter hv
      cases v <;> simp_all [FVal.isNaN, FVal.eqZero]
    simp only [validate_data_integrity, hinf]
    rw [if_pos hlen]
    rw [if_neg (show ¬(0 < (arr.filter FVal.isNaN).length
        ∧ (50 : ℚ) < 100 * ((arr.filter FVal.isNaN).length : ℚ) / arr.length)
      from fun h => absurd h.2 (not_lt.mpr (le_of_lt hpct)))]
    rw [if_pos (show 0 < (arr.filter FVal.isNaN).length
        ∧ ¬ (50 : ℚ) < 100 * ((arr.filter FVal.isNaN).length : ℚ) / arr.length
      from ⟨hk, not_lt.mpr (le_of_lt hpct)⟩)]
    rw [if_neg (show ¬ 0 < ([] : List FVal).length from by simp)]
    rw [if_neg (show ¬(0 < (cleanVals arr).length ∧ stdZero (cleanVals arr) = true)
      from fun h => Bool.false_ne_true (hstd ▸ h.2))]
    rw [if_neg (show ¬ arr.all FVal.eqZero = true
      from fun h => Bool.false_ne_true (hall0 ▸ h))]
    exact ⟨rfl, rfl, List.cons_ne_nil _ _⟩

/-- Witness for `validate_data_integrity_cases`: the all-zero array
`[0.0, 0.0]`, the all-NaN array `[nan]`, the constant array `[5.0, 5.0]`,
and the quarter-NaN array `[nan, 1.0, 2.0, 3.0]`. -/
theorem validate_data_integrity_cases_witness :
    (validate_data_integrity fmt0 smoothNo stdZeroQ [FVal.val 0, FVal.val 0] "data").valid = false
    ∧ (validate_data_integrity fmt0 smoothNo stdZeroQ [FVal.nan] "data").valid = false
    ∧ (validate_data_integrity fmt0 smoothNo stdZeroQ [FVal.val 5, FVal.val 5] "data").valid = false
    ∧ (validate_data_integrity fmt0 smoothNo stdZeroQ
        [FVal.nan, FVal.val 1, FVal.val 2, FVal.val 3] "data").valid = true := by
  have h := validate_data_integrity_cases fmt0 smoothNo stdZeroQ "data"
  refine ⟨?_, ?_, ?_, ?_⟩
  · exact h.1 [FVal.val 0, FVal.val 0] (by decide) (by decide)
  · exact h.2.1 [FVal.nan] (by decide) (by decide)
  · exact h.2.2.1 [FVal.val 5, FVal.val 5] 5 (by norm_num) (by decide) (by decide)
      (by norm_num [stdZeroQ, qvariance, qmean, cleanVals, List.filterMap])
  · exact (h.2.2.2 [FVal.nan, FVal.val 1, FVal.val 2, FVal.val 3] (by decide)
      (by norm_num [List.filter, FVal.isNaN])
      (by decide)
      (by norm_num [stdZeroQ, qvariance, qmean, cleanVals, List.filterMap])).1

/-- Claim C9 counterexample to the original claim: the constant non-zero
array `[0.1, 0.1, 0.1]` is accepted as valid with no issue.  The
program's zero-variance check is `np.std(clean) == 0` in IEEE-754
doubles; the mean of three 0.1s rounds to 0.10000000000000002, the
standard deviation evaluates to about 1.39e-17, not 0, so no issue
fires and the validator returns `valid = True` — `stdZeroFloat01`
records that verified value of the float check at this input. -/
theorem validate_data_integrity_cases_cex :
    (validate_data_integrity fmt0 smoothNo stdZeroFloat01
        [FVal.val (1/10), FVal.val (1/10), FVal.val (1/10)] "data").valid = true
    ∧ (validate_data_integrity fmt0 smoothNo stdZeroFloat01
        [FVal.val (1/10), FVal.val (1/10), FVal.val (1/10)] "data").issues = [] := by
  constructor <;>
    norm_num [validate_data_integrity, cleanVals, List.filterMap, List.filter,
      List.all, FVal.isNaN, FVal.isInf, FVal.eqZero, stdZeroFloat01, smoothNo]

/-- Concrete AST-oracle fixture: the walk yields a dangerous bare call, a
dangerous module call, a dunder attribute access and a benign node. -/
def astGood : AstOracle := fun _ =>
  Except.ok [PyNode.callName "eval", PyNode.callAttr "subprocess" "run",
    PyNode.attrNode "__class__", PyNode.other]

/-- Claim C10: `validate_code`'s `valid` flag depends only on whether the
text parses.  A syntax error yields `valid = false` with a single error
naming line and reason; any text that parses yields `valid = true` with
empty errors, and the AST walk only appends per-node warnings — including
the BLOCKED shell-execution message — without ever flipping `valid`. -/
theorem validate_code_valid_iff_parses (parseAst : AstOracle) (code : String) :
    (∀ (lineno : Nat) (msg : String),
        parseAst code = Except.error (lineno, msg) →
        (validate_code parseAst code).valid = false
        ∧ (validate_code parseAst code).errors
            = ["Syntax error at line " ++ toString lineno ++ ": " ++ msg])
    ∧ (∀ nodes : List PyNode, parseAst code = Except.ok nodes →
        (validate_code parseAst code).valid = true
        ∧ (validate_code parseAst code).errors = []
        ∧ (validate_code parseAst code).warnings = nodes.flatMap nodeWarnings
        ∧ (PyNode.callAttr "subprocess" "run" ∈ nodes →
            ("BLOCKED: subprocess.run() — shell execution is not "
              ++ "permitted inside the sandbox.")
              ∈ (validate_code parseAst code).warnings)) := by
  constructor
  · intro lineno msg hp
    simp only [validate_code, hp]
    refine ⟨?_, ?_⟩ <;> trivial
  · intro nodes hp
    simp only [validate_code, hp]
    refine ⟨?_, ?_, ?_, ?_⟩
    · trivial
    · trivial
    · trivial
    intro hmem
    exact List.mem_flatMap.mpr ⟨PyNode.callAttr "subprocess" "run", hmem, by decide⟩

/-- Witness for `validate_code_valid_iff_parses`: a parsing text whose walk
contains `eval(...)`, `subprocess.run(...)` and `__class__` access is
still `valid = true`, with the BLOCKED message among the warnings. -/
theorem validate_code_valid_iff_parses_witness :
    (validate_code astGood "subprocess.run(cmd)").valid = true
    ∧ ("BLOCKED: subprocess.run() — shell execution is not "
        ++ "permitted inside the sandbox.")
        ∈ (validate_code astGood "subprocess.run(cmd)").warnings := by
  have h := (validate_code_valid_iff_parses astGood "subprocess.run(cmd)").2
    [PyNode.callName "eval", PyNode.callAttr "subprocess" "run",
     PyNode.attrNode "__class__", PyNode.other] rfl
  exact ⟨h.1, h.2.2.2 (by decide)⟩
